import Mathlib

/-!
Verification development for the Talonix rhythm generator
(source file rythm-g.py).

The Python source is shallowly embedded: Python ints are modelled as
Nat/Int, Python floats as exact rationals, pydub AudioSegment values as a
record tracking the fields the program manipulates (millisecond duration,
channel layout, accumulated gain, pan gains), randomness as explicit
oracle parameters, and runtime errors as Option results (none = the
Python call raises).  File-system state consumed by load_samples is an
explicit environment record.
-/

/-- Python int() applied to an exact rational: truncation toward zero. -/
def pyTrunc (q : ℚ) : ℤ :=
  if 0 ≤ q then ⌊q⌋ else ⌈q⌉

/-- Model of a pydub AudioSegment.  Sample content is not tracked; the
fields are the attributes the program reads or writes: duration in
milliseconds, channel count, frame rate, sample width, the total gain in
dB accumulated by gain operations, and the left/right gains recorded by a
stereo pan (none while the segment was never panned). -/
structure AudioSeg where
  durationMs : ℕ
  channels : ℕ
  frameRate : ℕ
  sampleWidth : ℕ
  gainDb : ℚ
  panGains : Option (ℚ × ℚ)
deriving DecidableEq, Repr

/-- create_silent_segment(duration_ms): AudioSegment.silent at 44100 Hz. -/
def create_silent_segment (duration_ms : ℕ) : AudioSeg :=
  { durationMs := duration_ms, channels := 1, frameRate := 44100
    sampleWidth := 2, gainDb := 0, panGains := none }

/-- pydub concatenation (seg1 + seg2): durations add. -/
def AudioSeg.concat (a b : AudioSeg) : AudioSeg :=
  { durationMs := a.durationMs + b.durationMs
    channels := max a.channels b.channels
    frameRate := max a.frameRate b.frameRate
    sampleWidth := max a.sampleWidth b.sampleWidth
    gainDb := 0, panGains := none }

/-- pydub overlay: the result keeps the base segment duration and format
(overlay never extends the base). -/
def AudioSeg.overlay (base _over : AudioSeg) (_gainDuringOverlay : ℚ) : AudioSeg :=
  base

/-- pydub set_channels. -/
def AudioSeg.setChannels (a : AudioSeg) (n : ℕ) : AudioSeg :=
  { a with channels := n }

/-- pydub set_frame_rate. -/
def AudioSeg.setFrameRate (a : AudioSeg) (r : ℕ) : AudioSeg :=
  { a with frameRate := r }

/-- pydub set_sample_width. -/
def AudioSeg.setSampleWidth (a : AudioSeg) (w : ℕ) : AudioSeg :=
  { a with sampleWidth := w }

/-- pydub gain application (seg + dB). -/
def AudioSeg.addGain (a : AudioSeg) (g : ℚ) : AudioSeg :=
  { a with gainDb := a.gainDb + g }

/-- Python slicing sample[:d] on a pydub segment: truncation to d ms
(only used with d at most the current duration). -/
def AudioSeg.sliceTo (a : AudioSeg) (d : ℕ) : AudioSeg :=
  { a with durationMs := d }

/-- The stereo pan call invoked by apply_panning, modelled as recording
the requested left/right gains. -/
def AudioSeg.panLR (a : AudioSeg) (leftGain rightGain : ℚ) : AudioSeg :=
  { a with panGains := some (leftGain, rightGain) }

/-- Coercion to the canonical format used before normalize and export:
set_channels(1).set_frame_rate(44100).set_sample_width(2). -/
def AudioSeg.canonical (a : AudioSeg) : AudioSeg :=
  ((a.setChannels 1).setFrameRate 44100).setSampleWidth 2

-- Constants from the source.

/-- MIN_BPM. -/
def MIN_BPM : ℤ := 20

/-- MAX_BPM. -/
def MAX_BPM : ℤ := 300

/-- MIN_SWING. -/
def MIN_SWING : ℤ := -50

/-- MAX_SWING. -/
def MAX_SWING : ℤ := 50

/-- DEFAULT_VOLUME. -/
def DEFAULT_VOLUME : ℤ := 80

/-- NOTE_TYPES: note type name to beat fraction. -/
def NOTE_TYPES : List (String × ℚ) :=
  [("whole", 4), ("half", 2), ("quarter", 1), ("eighth", 1/2),
   ("sixteenth", 1/4), ("thirty-second", 1/8)]

/-- COMPLEXITY_LEVELS. -/
def COMPLEXITY_LEVELS : List String := ["simple", "medium", "complex"]

/-- TIME_SIGNATURES. -/
def TIME_SIGNATURES : List String := ["4/4", "3/4", "6/8"]

/-- SUBDIVISIONS. -/
def SUBDIVISIONS : List String := ["straight", "triplet"]

/-- INSTRUMENT_TO_FOLDER mapping. -/
def INSTRUMENT_TO_FOLDER : List (String × String) :=
  [("kick", "kicks"), ("snare", "snares"), ("hihat", "hihats"),
   ("bass", "bass"), ("synth", "synth"), ("guitar", "guitar"),
   ("clap", "clap"), ("tambourine", "tambourine"),
   ("percussion", "percussion")]

/-- AVAILABLE_INSTRUMENTS = list(INSTRUMENT_TO_FOLDER.keys()). -/
def AVAILABLE_INSTRUMENTS : List String :=
  INSTRUMENT_TO_FOLDER.map Prod.fst

/-- One style template from STYLE_CONFIGS. -/
structure StyleConfig where
  bpm : ℤ
  pattern : List (String × List ℕ)
  swing : ℤ
  complexity : String
  time_signature : String

/-- STYLE_CONFIGS. -/
def STYLE_CONFIGS : List (String × StyleConfig) :=
  [("hiphop",
    { bpm := 85
      pattern :=
        [("kick", [1, 0, 1, 0, 1, 0, 1, 0]), ("snare", [0, 0, 0, 0, 1, 0, 0, 0]),
         ("hihat", [1, 1, 1, 1, 1, 1, 1, 1]), ("bass", [1, 0, 0, 0, 1, 0, 0, 0]),
         ("synth", [0, 1, 0, 1, 0, 1, 0, 1]), ("guitar", [0, 0, 1, 0, 0, 0, 1, 0]),
         ("percussion", [0, 0, 0, 1, 0, 0, 0, 1])]
      swing := 20, complexity := "medium", time_signature := "4/4" }),
   ("lofi",
    { bpm := 70
      pattern :=
        [("kick", [1, 0, 0, 0, 1, 0, 0, 0]), ("snare", [0, 0, 0, 0, 1, 0, 0, 0]),
         ("hihat", [1, 0, 1, 0, 1, 0, 1, 0]), ("bass", [1, 0, 0, 0, 0, 0, 0, 0]),
         ("synth", [1, 0, 1, 0, 1, 0, 1, 0]), ("guitar", [0, 0, 0, 0, 1, 0, 0, 0]),
         ("percussion", [0, 0, 0, 1, 0, 0, 0, 0])]
      swing := 10, complexity := "simple", time_signature := "4/4" }),
   ("edm",
    { bpm := 128
      pattern :=
        [("kick", [1, 0, 1, 0, 1, 0, 1, 0]), ("snare", [0, 0, 0, 0, 1, 0, 0, 0]),
         ("hihat", [1, 1, 1, 1, 1, 1, 1, 1]), ("bass", [1, 1, 1, 1, 1, 1, 1, 1]),
         ("synth", [1, 0, 0, 0, 1, 0, 0, 0]), ("guitar", [0, 0, 0, 0, 0, 0, 0, 0]),
         ("percussion", [0, 0, 0, 0, 0, 0, 0, 1])]
      swing := 0, complexity := "complex", time_signature := "4/4" }),
   ("pop",
    { bpm := 120
      pattern :=
        [("kick", [1, 0, 1, 0, 1, 0, 1, 0]), ("snare", [0, 0, 0, 0, 1, 0, 0, 0]),
         ("hihat", [1, 1, 1, 1, 1, 1, 1, 1]), ("bass", [1, 0, 0, 0, 1, 0, 0, 0]),
         ("synth", [1, 0, 1, 0, 1, 0, 1, 0]), ("guitar", [0, 1, 0, 1, 0, 1, 0, 1]),
         ("percussion", [0, 0, 0, 1, 0, 0, 0, 1])]
      swing := 5, complexity := "medium", time_signature := "4/4" })]

/-- AVAILABLE_INSTRUMENTS.index(inst): none models the ValueError raised
when the instrument is not in the list. -/
def instIndex (inst : String) : Option ℕ :=
  if inst ∈ AVAILABLE_INSTRUMENTS then some (AVAILABLE_INSTRUMENTS.indexOf inst) else none

-- Effects (apply_swing, apply_panning, apply_volume).

/-- apply_swing(beat_idx, swing_percent, beat_duration_ms).  Defined in
the source but its result is never consumed by the mixing pipeline. -/
def apply_swing (beat_idx : ℕ) (swing_percent : ℤ) (beat_duration_ms : ℕ) : ℚ :=
  if swing_percent = 0 ∨ beat_idx % 2 = 0 then 0
  else ((swing_percent : ℚ) / 100) * ((beat_duration_ms : ℚ) / 2)

/-- apply_panning(audio, pan). -/
def apply_panning (audio : AudioSeg) (pan : ℚ) : AudioSeg :=
  if pan = 0 then audio
  else (audio.setChannels 2).panLR (-pan * 12) (pan * 12)

/-- apply_volume(audio, volume): maps 0..100 to -24dB..0dB. -/
def apply_volume (audio : AudioSeg) (volume : ℤ) : AudioSeg :=
  if volume = 100 then audio
  else audio.addGain (((volume : ℚ) - 100) * (24/100))

-- Pattern generation.

/-- extend_base_pattern(base_pattern, pattern_length).  none models the
ZeroDivisionError raised when the base pattern is empty and shorter than
the requested length. -/
def extend_base_pattern (base_pattern : List ℕ) (pattern_length : ℕ) : Option (List ℕ) :=
  if pattern_length ≤ base_pattern.length then some (base_pattern.take pattern_length)
  else if base_pattern.length = 0 then none
  else some ((List.replicate (pattern_length / base_pattern.length) base_pattern).flatten
      ++ base_pattern.take (pattern_length % base_pattern.length))

/-- random.choice applied to the two-element list 0,1, as a function of
one oracle draw. -/
def choiceBit (q : ℚ) : ℕ :=
  if q < 1/2 then 0 else 1

/-- The simple-complexity row: each position is a hit when the next
random draw is below 0.3.  Arguments: remaining positions, next draw
index. -/
def simpleRow (g : ℕ → ℚ) : ℕ → ℕ → List ℕ
  | 0, _ => []
  | n + 1, k => (if g k < 3/10 then 1 else 0) :: simpleRow g n (k + 1)

/-- A base-pattern-guided row (medium and complex complexities): position
i copies the base pattern when the next draw is below the threshold, and
otherwise consumes a second draw for a random 0/1.  Arguments: remaining
positions, current position, next draw index. -/
def basedRow (g : ℕ → ℚ) (thresh : ℚ) (base : List ℕ) : ℕ → ℕ → ℕ → List ℕ
  | 0, _, _ => []
  | n + 1, i, k =>
    if g k < thresh then base.getD i 0 :: basedRow g thresh base n (i + 1) (k + 1)
    else choiceBit (g (k + 1)) :: basedRow g thresh base n (i + 1) (k + 2)

/-- Python range(start, stop, -step) for a positive step, descending
while the index stays above stop.  The first argument is fuel; it is
instantiated with start, which suffices when step is at least 1. -/
def rangeDownAux (stop step : ℕ) : ℕ → ℕ → List ℕ
  | 0, _ => []
  | fuel + 1, start =>
    if stop < start then start :: rangeDownAux stop step fuel (start - step)
    else []

/-- Python range(start, stop, -step) for step at least 1. -/
def pyRangeDown (start stop step : ℕ) : List ℕ :=
  rangeDownAux stop step start start

/-- The complex-complexity fill walk: pattern[i] = 1 for i in
range(pattern_length - 1, 0, -step). -/
def applyFill (row : List ℕ) (pattern_length step : ℕ) : List ℕ :=
  (pyRangeDown (pattern_length - 1) 0 step).foldl (fun r i => r.set i 1) row

/-- generate_pattern(complexity, pattern_length, base_pattern,
fill_frequency) with the random source passed as an oracle g.  none
models an uncaught exception: empty base pattern to extend, a zero
fill_frequency (ZeroDivisionError), a zero range step (ValueError), or
indexing position 0 of an empty row. -/
def generate_pattern (g : ℕ → ℚ) (complexity : String) (pattern_length : ℕ)
    (base_pattern : List ℕ) (fill_frequency : ℚ) : Option (List ℕ) :=
  match extend_base_pattern base_pattern pattern_length with
  | none => none
  | some base =>
    let row? : Option (List ℕ) :=
      if complexity = "simple" then
        some (simpleRow g pattern_length 0)
      else if complexity = "medium" then
        some (((basedRow g (7/10) base pattern_length 0 0).set 0 1).set (pattern_length / 2) 1)
      else
        let row := basedRow g (1/2) base pattern_length 0 0
        if fill_frequency = 0 then none
        else
          let s := pyTrunc (1 / fill_frequency)
          if s = 0 then none
          else if 0 < s then some (applyFill row pattern_length s.toNat)
          else some row
    match row? with
    | none => none
    | some row => if pattern_length = 0 then none else some (row.set 0 1)

-- Sample loading (generate_synthetic_tone, load_samples, choose_sample).

/-- generate_synthetic_tone(frequency, duration_ms): with NumPy a mono
sine tone of the requested duration at 44100 Hz, 16 bit; without NumPy a
silent segment of the same duration. -/
def generate_synthetic_tone (numpyAvailable : Bool) (_frequency : ℚ) (duration_ms : ℕ) :
    AudioSeg :=
  if numpyAvailable then
    { durationMs := duration_ms, channels := 1, frameRate := 44100
      sampleWidth := 2, gainDb := 0, panGains := none }
  else
    create_silent_segment duration_ms

/-- One file inside an instrument folder: whether its name ends in .wav,
and the canonicalized segment it decodes to (none when decoding or
conversion raises, in which case the file is skipped). -/
structure SampleFile where
  isWav : Bool
  decoded : Option AudioSeg

/-- The file-system state load_samples consults.  fuzzyMatch models
difflib.get_close_matches with n=1 and cutoff 0.8; its result, when
present, is one of the candidate folder names, so listing the matched
folder cannot fail and folderFiles is total. -/
structure LoadEnv where
  numpyAvailable : Bool
  samplesDirExists : Bool
  availableFolders : List String
  fuzzyMatch : String → List String → Option String
  folderFiles : String → List SampleFile

/-- load_samples(instrument).  none models the ValueError raised by
AVAILABLE_INSTRUMENTS.index when the instrument is unsupported; every
other path returns a list of segments. -/
def load_samples (env : LoadEnv) (instrument : String) : Option (List AudioSeg) :=
  let folder_name := ((INSTRUMENT_TO_FOLDER.lookup instrument).getD instrument)
  match instIndex instrument with
  | none => none
  | some idx =>
    let synthetic := [generate_synthetic_tone env.numpyAvailable (200 + 100 * idx) 200]
    if ¬ env.samplesDirExists then some synthetic
    else
      match (if folder_name ∈ env.availableFolders then some folder_name
             else env.fuzzyMatch folder_name env.availableFolders) with
      | none => some synthetic
      | some folder =>
        let files := env.folderFiles folder
        if files.isEmpty then some synthetic
        else
          let samples := files.filterMap (fun f => if f.isWav then f.decoded else none)
          if samples.isEmpty then some synthetic else some samples

/-- choose_sample(samples): random.choice when the list is nonempty,
modelled by an oracle index reduced mod the length; a 200 ms silent
segment when the list is empty. -/
def choose_sample (samples : List AudioSeg) (oracleIdx : ℕ) : AudioSeg :=
  if samples.isEmpty then create_silent_segment 200
  else samples.getD (oracleIdx % samples.length) (create_silent_segment 200)

-- MIDI generation (generate_midi), modelled up to the event list and the
-- delta-time computation that is written into the track.

/-- A MIDI note message emitted by generate_midi. -/
inductive MidiMsg where
  | noteOn (note : ℕ)
  | noteOff (note : ℕ)
deriving DecidableEq, Repr

/-- The note event pairs one instrument row contributes: for every hit
at position i, a note_on at i * note_duration and a note_off one
note_duration later. -/
def eventsFor (note nd : ℕ) (row : List ℕ) : List (ℕ × MidiMsg) :=
  (row.enum.map (fun p =>
    if p.2 ≠ 0 then [(p.1 * nd, MidiMsg.noteOn note), (p.1 * nd + nd, MidiMsg.noteOff note)]
    else [])).flatten

/-- note_duration = int(ticks_per_beat * NOTE_TYPES[note_type] * (2/3 if
triplet else 1)); mido MidiFile ticks_per_beat defaults to 480. -/
def noteDurationTicks (note_type subdivision : String) : ℕ :=
  (pyTrunc (480 * ((NOTE_TYPES.lookup note_type).getD 1)
    * (if subdivision = "triplet" then 2/3 else 1))).toNat

/-- The unsorted event list generate_midi accumulates over all
instrument rows, with midi_note = 36 + index of the instrument; none
models the ValueError raised on an unsupported instrument name. -/
def generate_midi_events (nd : ℕ) (patterns : List (String × List ℕ)) :
    Option (List (ℕ × MidiMsg)) :=
  (patterns.mapM (fun p => (instIndex p.1).map (fun idx => eventsFor (36 + idx) nd p.2))).map
    List.flatten

/-- The delta-time computation of generate_midi: each sorted event is
written with time = its absolute tick minus the previous absolute tick,
starting from last_time = 0. -/
def deltaTimes : ℤ → List (ℕ × MidiMsg) → List (ℤ × MidiMsg)
  | _, [] => []
  | last, (t, m) :: rest => ((t : ℤ) - last, m) :: deltaTimes (t : ℤ) rest

/-- The track body generate_midi writes: events sorted by absolute tick
(list.sort with key x[0], a stable ascending sort) and converted to
delta times. -/
def generate_midi_track (nd : ℕ) (patterns : List (String × List ℕ)) :
    Option (List (ℤ × MidiMsg)) :=
  (generate_midi_events nd patterns).map (fun evts =>
    deltaTimes 0 (evts.mergeSort (fun a b => a.1 ≤ b.1)))

/-- Whether a timed event is a note_on. -/
def isOnEvt {γ : Type} (e : γ × MidiMsg) : Bool :=
  match e.2 with
  | MidiMsg.noteOn _ => true
  | _ => false

/-- Whether a timed event is a note_off. -/
def isOffEvt {γ : Type} (e : γ × MidiMsg) : Bool :=
  match e.2 with
  | MidiMsg.noteOff _ => true
  | _ => false

/-- Number of note_on messages in a track. -/
def countOn (track : List (ℤ × MidiMsg)) : ℕ :=
  track.countP isOnEvt

/-- Number of note_off messages in a track. -/
def countOff (track : List (ℤ × MidiMsg)) : ℕ :=
  track.countP isOffEvt

/-- Whether every delta time in a track is non-negative. -/
def nonnegDeltas (track : List (ℤ × MidiMsg)) : Bool :=
  track.all (fun e => 0 ≤ e.1)

/-- Total number of hits across all instrument rows. -/
def totalHits (patterns : List (String × List ℕ)) : ℕ :=
  (patterns.map (fun p => p.2.countP (fun h => h ≠ 0))).sum

-- The generation pipeline (generate_rhythm).

/-- The oracle environment for one generation run: the random draws
consumed by each instrument row, the random.choice index for each
(instrument, beat) sample pick, the gain that pydub normalize applies to
a given segment, whether normalization succeeds for a beat, and whether
the overlay try-block succeeds for an (instrument, beat) pair. -/
structure Env where
  rand : String → ℕ → ℚ
  choiceIdx : String → ℕ → ℕ
  normGain : AudioSeg → ℚ
  normOk : ℕ → Bool
  overlayOk : String → ℕ → Bool

/-- The sample adjustment applied to a chosen sample before overlay:
volume, pan, then right-pad with silence or truncate to exactly
beat_duration_ms. -/
def adjustSample (sample : AudioSeg) (volume : ℤ) (pan : ℚ) (beat_duration_ms : ℕ) :
    AudioSeg :=
  let s := apply_volume sample volume
  let s := apply_panning s pan
  if s.durationMs < beat_duration_ms then
    s.concat (create_silent_segment (beat_duration_ms - s.durationMs))
  else if beat_duration_ms < s.durationMs then s.sliceTo beat_duration_ms
  else s

/-- instrument_stems[instrument] += stem_segment: every stem entry keyed
by the instrument is extended. -/
def stemAppend (stems : List (String × AudioSeg)) (inst : String) (seg : AudioSeg) :
    List (String × AudioSeg) :=
  stems.map (fun p => if p.1 = inst then (p.1, p.2.concat seg) else p)

/-- The body of the per-beat instrument loop for one instrument: when the
instrument has a hit at this beat, choose a sample, adjust it, overlay it
onto the beat layer with -6 dB, and append the overlaid stem segment; an
overlay failure drops that contribution (beat layer and stem are left
unchanged). -/
def instrumentStep (env : Env) (beat_duration_ms : ℕ)
    (patterns : List (String × List ℕ)) (volumes : List (String × ℤ))
    (pan_settings : List (String × ℚ)) (beat_idx : ℕ)
    (acc : AudioSeg × List (String × AudioSeg)) (p : String × List AudioSeg) :
    AudioSeg × List (String × AudioSeg) :=
  let inst := p.1
  match patterns.lookup inst with
  | none => acc
  | some row =>
    if row.getD beat_idx 0 ≠ 0 then
      let sample := choose_sample p.2 (env.choiceIdx inst beat_idx)
      let sample := adjustSample sample ((volumes.lookup inst).getD DEFAULT_VOLUME)
        ((pan_settings.lookup inst).getD 0) beat_duration_ms
      if env.overlayOk inst beat_idx then
        (acc.1.overlay sample (-6),
         stemAppend acc.2 inst ((create_silent_segment beat_duration_ms).overlay sample 0))
      else acc
    else acc

/-- One beat of the mixing loop: start from a silent beat layer, fold the
instrument loop over instrument_samples, then normalize the layer in
canonical format (modelled as the normalize gain applied to the
canonicalized layer); a normalization failure replaces the layer with
silence of beat_duration_ms. -/
def beatStep (env : Env) (beat_duration_ms : ℕ)
    (patterns : List (String × List ℕ)) (volumes : List (String × ℤ))
    (pan_settings : List (String × ℚ))
    (instrument_samples : List (String × List AudioSeg)) (beat_idx : ℕ)
    (stems : List (String × AudioSeg)) : AudioSeg × List (String × AudioSeg) :=
  let start : AudioSeg × List (String × AudioSeg) :=
    (create_silent_segment beat_duration_ms, stems)
  let folded := instrument_samples.foldl
    (instrumentStep env beat_duration_ms patterns volumes pan_settings beat_idx) start
  let layer :=
    if env.normOk beat_idx then (folded.1.canonical).addGain (env.normGain folded.1.canonical)
    else create_silent_segment beat_duration_ms
  (layer, folded.2)

/-- The per-beat loop over beat indices 0, 1, ..., beats - 1, returning
the accumulated beat layers and the stem map. -/
def mixLoop (env : Env) (beat_duration_ms : ℕ)
    (patterns : List (String × List ℕ)) (volumes : List (String × ℤ))
    (pan_settings : List (String × ℚ))
    (instrument_samples : List (String × List AudioSeg))
    (stems0 : List (String × AudioSeg)) :
    ℕ → List AudioSeg × List (String × AudioSeg)
  | 0 => ([], stems0)
  | beats + 1 =>
    let prev := mixLoop env beat_duration_ms patterns volumes pan_settings
      instrument_samples stems0 beats
    let cur := beatStep env beat_duration_ms patterns volumes pan_settings
      instrument_samples beats prev.2
    (prev.1 ++ [cur.1], cur.2)

/-- Loop assembly: concatenate the beat layers loop_repeats times onto an
empty segment, apply master volume, and pad with trailing silence when
the realized duration falls short of the expected duration. -/
def assembleLoop (beat_layers : List AudioSeg) (loop_repeats : ℕ) (master_volume : ℤ)
    (expected_duration : ℕ) : AudioSeg :=
  let loop := ((List.replicate loop_repeats beat_layers).flatten).foldl
    AudioSeg.concat (create_silent_segment 0)
  let loop := apply_volume loop master_volume
  if loop.durationMs < expected_duration then
    loop.concat (create_silent_segment (expected_duration - loop.durationMs))
  else loop

/-- Style validation: an unrecognized style falls back to pop. -/
def validStyle (style : String) : String :=
  if (STYLE_CONFIGS.lookup style).isSome then style else "pop"

/-- STYLE_CONFIGS[style], defined for validated style names. -/
def styleConfig (style : String) : StyleConfig :=
  (STYLE_CONFIGS.lookup style).getD
    { bpm := 120, pattern := [], swing := 5, complexity := "medium"
      time_signature := "4/4" }

/-- BPM validation (applied after style validation): out of range falls
back to the selected style default. -/
def validBpm (style : String) (bpm : ℤ) : ℤ :=
  if bpm < MIN_BPM ∨ MAX_BPM < bpm then (styleConfig style).bpm else bpm

/-- Note type validation. -/
def validNoteType (note_type : String) : String :=
  if (NOTE_TYPES.lookup note_type).isSome then note_type else "quarter"

/-- Swing validation: out of range falls back to 0. -/
def validSwing (swing : ℤ) : ℤ :=
  if swing < MIN_SWING ∨ MAX_SWING < swing then 0 else swing

/-- Complexity validation. -/
def validComplexity (complexity : String) : String :=
  if complexity ∈ COMPLEXITY_LEVELS then complexity else "medium"

/-- Pattern length validation: out of 4..16 falls back to 8. -/
def validPatternLength (pattern_length : ℕ) : ℕ :=
  if pattern_length < 4 ∨ 16 < pattern_length then 8 else pattern_length

/-- Time signature validation. -/
def validTimeSignature (time_signature : String) : String :=
  if time_signature ∈ TIME_SIGNATURES then time_signature else "4/4"

/-- Subdivision validation. -/
def validSubdivision (subdivision : String) : String :=
  if subdivision ∈ SUBDIVISIONS then subdivision else "straight"

/-- beat_duration_ms = int(60000 / bpm * NOTE_TYPES[note_type]), halved
to two thirds for triplet subdivision; both arguments are already
validated. -/
def beatDurationMs (bpm : ℤ) (note_type subdivision : String) : ℕ :=
  let bd := (pyTrunc (60000 / (bpm : ℚ) * ((NOTE_TYPES.lookup note_type).getD 1))).toNat
  if subdivision = "triplet" then (pyTrunc ((bd : ℚ) * 2 / 3)).toNat else bd

/-- The value generate_rhythm returns: the early no-instrument path
returns a two-element tuple (silent loop, empty stem dict), the normal
path a three-element tuple. -/
inductive GenResult where
  | pair (loop : AudioSeg) (stems : List (String × AudioSeg))
  | triple (loop : AudioSeg) (stems : List (String × AudioSeg))
      (patterns : List (String × List ℕ))

/-- The loop component of a generate_rhythm result. -/
def GenResult.loopSeg : GenResult → AudioSeg
  | GenResult.pair loop _ => loop
  | GenResult.triple loop _ _ => loop

/-- generate_rhythm, from input validation through loop assembly.  The
swing parameter is validated and displayed but never consumed by the
pipeline.  none models an uncaught exception (pattern generation or
sample loading raising). -/
def generate_rhythm (env : Env) (lenv : LoadEnv) (style : String)
    (instruments : List String) (bpm : ℤ) (note_type : String) (swing : ℤ)
    (complexity : String) (volumes : List (String × ℤ)) (pattern_length : ℕ)
    (time_signature : String) (subdivision : String) (fill_frequency : ℚ)
    (master_volume : ℤ) (pan_settings : List (String × ℚ)) (loop_repeats : ℕ) :
    Option GenResult :=
  let style := validStyle style
  let bpm := validBpm style bpm
  let note_type := validNoteType note_type
  let _swing := validSwing swing
  let complexity := validComplexity complexity
  let pattern_length := validPatternLength pattern_length
  let _time_signature := validTimeSignature time_signature
  let subdivision := validSubdivision subdivision
  let beat_duration_ms := beatDurationMs bpm note_type subdivision
  let base_patterns := (styleConfig style).pattern
  match instruments.mapM (fun inst =>
      (generate_pattern (env.rand inst) complexity pattern_length
        ((base_patterns.lookup inst).getD (List.replicate 8 0)) fill_frequency).map
        (fun row => (inst, row))) with
  | none => none
  | some instrument_patterns =>
    match instruments.mapM (fun inst =>
        (load_samples lenv inst).map (fun s => (inst, s))) with
    | none => none
    | some loaded =>
      let instrument_samples := loaded.filter (fun p => ¬ p.2.isEmpty)
      if instrument_samples.isEmpty then
        some (GenResult.pair
          (create_silent_segment (pattern_length * beat_duration_ms * loop_repeats)) [])
      else
        let stems0 := instrument_samples.map (fun p => (p.1, create_silent_segment 0))
        let mixed := mixLoop env beat_duration_ms instrument_patterns volumes
          pan_settings instrument_samples stems0 pattern_length
        let expected_duration := pattern_length * beat_duration_ms * loop_repeats
        let loop := assembleLoop mixed.1 loop_repeats master_volume expected_duration
        some (GenResult.triple loop mixed.2 instrument_patterns)

-- Theorems.

/-- C6: apply_volume at volume 100 is the identity fast path, and for
every volume in 0..100 the gain change applied is exactly
(volume - 100) * 0.24 dB, hence exactly -24 dB at volume 0. -/
theorem volume_gain_mapping (b : AudioSeg) (v : ℤ) (h0 : 0 ≤ v) (h1 : v ≤ 100) :
    apply_volume b 100 = b ∧
    (apply_volume b v).gainDb = b.gainDb + ((v : ℚ) - 100) * (24/100) ∧
    (apply_volume b 0).gainDb = b.gainDb - 24 := by
  refine ⟨by simp [apply_volume], ?_, ?_⟩
  · by_cases hv : v = 100
    · subst hv
      simp [apply_volume]
    · simp [apply_volume, hv, AudioSeg.addGain]
  · simp [apply_volume, AudioSeg.addGain]
    ring

/-- Witness for volume_gain_mapping at a concrete buffer and volume 0. -/
theorem volume_gain_mapping_witness :
    apply_volume (create_silent_segment 500) 100 = create_silent_segment 500 ∧
    (apply_volume (create_silent_segment 500) 0).gainDb =
      (create_silent_segment 500).gainDb + ((0 : ℚ) - 100) * (24/100) ∧
    (apply_volume (create_silent_segment 500) 0).gainDb =
      (create_silent_segment 500).gainDb - 24 :=
  volume_gain_mapping (create_silent_segment 500) 0 (by decide) (by decide)

/-- C7: apply_panning at pan 0 returns the buffer unchanged (channel
count preserved), and at any nonzero pan in -1..1 it produces a
two-channel buffer with left gain -pan*12 dB and right gain pan*12 dB. -/
theorem pan_gain_mapping (b : AudioSeg) (p : ℚ) (hlo : -1 ≤ p) (hhi : p ≤ 1) :
    apply_panning b 0 = b ∧
    (p ≠ 0 → (apply_panning b p).channels = 2 ∧
      (apply_panning b p).panGains = some (-p * 12, p * 12)) := by
  refine ⟨by simp [apply_panning], fun hp => ?_⟩
  simp [apply_panning, hp, AudioSeg.setChannels, AudioSeg.panLR]

/-- Witness for pan_gain_mapping at a concrete buffer and pan 1. -/
theorem pan_gain_mapping_witness :
    apply_panning (create_silent_segment 500) 0 = create_silent_segment 500 ∧
    ((1 : ℚ) ≠ 0 → (apply_panning (create_silent_segment 500) 1).channels = 2 ∧
      (apply_panning (create_silent_segment 500) 1).panGains =
        some (-(1 : ℚ) * 12, (1 : ℚ) * 12)) :=
  pan_gain_mapping (create_silent_segment 500) 1 (by norm_num) (by norm_num)

/-- C8: after style validation, an out-of-range bpm is replaced by the
selected style default before the beat duration is computed, and an
in-range bpm is used unchanged. -/
theorem bpm_fallback (style : String) (bpm : ℤ) :
    ((bpm < MIN_BPM ∨ MAX_BPM < bpm) →
      validBpm (validStyle style) bpm = (styleConfig (validStyle style)).bpm) ∧
    (MIN_BPM ≤ bpm → bpm ≤ MAX_BPM → validBpm (validStyle style) bpm = bpm) := by
  constructor
  · intro h
    simp [validBpm, h]
  · intro h1 h2
    have hcond : ¬ (bpm < MIN_BPM ∨ MAX_BPM < bpm) := by
      push_neg
      exact ⟨h1, h2⟩
    simp [validBpm, hcond]

/-- Witness for bpm_fallback: bpm 1000 falls back to the hiphop default,
bpm 120 is kept. -/
theorem bpm_fallback_witness :
    validBpm (validStyle "hiphop") 1000 = (styleConfig (validStyle "hiphop")).bpm ∧
    validBpm (validStyle "hiphop") 120 = 120 :=
  ⟨(bpm_fallback "hiphop" 1000).1 (by decide),
   (bpm_fallback "hiphop" 120).2 (by decide) (by decide)⟩

/-- C10: at the documented lower end fill_frequency = 0.0 the complex
branch of generate_pattern raises (ZeroDivisionError computing
int(1 / fill_frequency)) instead of returning a row. -/
theorem complex_fill_zero_division :
    generate_pattern (fun _ => 0) "complex" 8 [1, 0, 1, 0, 1, 0, 1, 0] 0 = none := by
  rfl

-- Helper lemmas for pattern generation.

theorem simpleRow_length (g : ℕ → ℚ) : ∀ n k, (simpleRow g n k).length = n := by
  intro n
  induction n with
  | zero => intro k; rfl
  | succ m ih =>
    intro k
    simp only [simpleRow]
    split
    · simp [ih]
    · simp [ih]

theorem basedRow_length (g : ℕ → ℚ) (t : ℚ) (base : List ℕ) :
    ∀ n i k, (basedRow g t base n i k).length = n := by
  intro n
  induction n with
  | zero => intro i k; rfl
  | succ m ih =>
    intro i k
    simp only [basedRow]
    split
    · simp [ih]
    · simp [ih]

theorem foldl_set_length (l : List ℕ) :
    ∀ row : List ℕ, (l.foldl (fun r i => r.set i 1) row).length = row.length := by
  induction l with
  | nil => intro row; rfl
  | cons a t ih =>
    intro row
    simp only [List.foldl_cons]
    rw [ih]
    exact List.length_set ..

theorem applyFill_length (row : List ℕ) (n s : ℕ) :
    (applyFill row n s).length = row.length :=
  foldl_set_length _ row

theorem extend_isSome (base : List ℕ) (n : ℕ) (h : base ≠ []) :
    ∃ b, extend_base_pattern base n = some b := by
  unfold extend_base_pattern
  split
  · exact ⟨_, rfl⟩
  · rw [if_neg (by simpa using h)]
    exact ⟨_, rfl⟩

theorem set_zero_head (row : List ℕ) (h : row ≠ []) : (row.set 0 1).head? = some 1 := by
  cases row with
  | nil => exact absurd rfl h
  | cons a t => rfl

theorem one_le_pyTrunc (q : ℚ) (h : 1 ≤ q) : 1 ≤ pyTrunc q := by
  simp only [pyTrunc, if_pos (le_trans zero_le_one h)]
  exact Int.le_floor.mpr (by exact_mod_cast h)

theorem gpShape (g : ℕ → ℚ) (complexity : String) (n : ℕ)
    (base : List ℕ) (f : ℚ) (hc : complexity ∈ COMPLEXITY_LEVELS)
    (hpos : 0 < n) (hb : base ≠ []) (hf0 : 0 < f) (hf1 : f ≤ 1) :
    (generate_pattern g complexity n base f).map List.length = some n ∧
    (generate_pattern g complexity n base f).bind List.head? = some 1 := by
  obtain ⟨b, hbext⟩ := extend_isSome base n hb
  have hnz : n ≠ 0 := Nat.pos_iff_ne_zero.mp hpos
  simp only [COMPLEXITY_LEVELS, List.mem_cons, List.not_mem_nil, or_false] at hc
  have result_shape : ∀ row : List ℕ, row.length = n →
      (Option.map List.length (some (row.set 0 1)) = some n ∧
       Option.bind (some (row.set 0 1)) List.head? = some 1) := by
    intro row hrow
    have hne : row ≠ [] := by
      intro hemp
      rw [hemp] at hrow
      exact hnz hrow.symm
    constructor
    · simp [List.length_set, hrow]
    · simp [set_zero_head row hne]
  rcases hc with hc | hc | hc
  all_goals subst hc
  · unfold generate_pattern
    rw [hbext]
    simp only [reduceIte, if_neg hnz]
    exact result_shape _ (by simp [List.length_set, simpleRow_length])
  · unfold generate_pattern
    rw [hbext]
    simp only [reduceIte, if_neg hnz]
    exact result_shape _ (by simp [List.length_set, basedRow_length])
  · have hfne : f ≠ 0 := ne_of_gt hf0
    have hone : (1 : ℚ) ≤ 1 / f := one_le_one_div hf0 hf1
    have hs1 : 1 ≤ pyTrunc (1 / f) := one_le_pyTrunc _ hone
    have hsne : pyTrunc (1 / f) ≠ 0 := by omega
    have hspos : 0 < pyTrunc (1 / f) := by omega
    unfold generate_pattern
    rw [hbext]
    simp only [reduceIte, if_neg hfne, if_neg hsne, if_pos hspos, if_neg hnz]
    exact result_shape _ (by simp [applyFill_length, basedRow_length])

/-- C2: for every complexity level, every pattern_length in 4..16, and
every non-empty base pattern (with any fill frequency in the documented
positive range), generate_pattern returns a row of length exactly
pattern_length whose position 0 is a hit. -/
theorem pattern_length_and_downbeat (g : ℕ → ℚ) (complexity : String) (n : ℕ)
    (base : List ℕ) (f : ℚ) (hc : complexity ∈ COMPLEXITY_LEVELS)
    (h4 : 4 ≤ n) (h16 : n ≤ 16) (hb : base ≠ []) (hf0 : 0 < f) (hf1 : f ≤ 1) :
    (generate_pattern g complexity n base f).map List.length = some n ∧
    (generate_pattern g complexity n base f).bind List.head? = some 1 :=
  gpShape g complexity n base f hc (by omega) hb hf0 hf1

/-- Witness for pattern_length_and_downbeat: complex complexity, length
8, the hiphop kick base pattern, the default fill frequency 0.2. -/
theorem pattern_length_and_downbeat_witness :
    (generate_pattern (fun _ => 0) "complex" 8 [1, 0, 1, 0, 1, 0, 1, 0] (2/10)).map
      List.length = some 8 ∧
    (generate_pattern (fun _ => 0) "complex" 8 [1, 0, 1, 0, 1, 0, 1, 0] (2/10)).bind
      List.head? = some 1 :=
  pattern_length_and_downbeat (fun _ => 0) "complex" 8 [1, 0, 1, 0, 1, 0, 1, 0] (2/10)
    (by decide) (by decide) (by decide) (by decide) (by norm_num) (by norm_num)

-- Sample loading: non-emptiness.

theorem loadSamplesNonempty (env : LoadEnv) (inst : String)
    (h : inst ∈ AVAILABLE_INSTRUMENTS) :
    (load_samples env inst).map List.isEmpty = some false := by
  unfold load_samples
  rw [show instIndex inst = some (AVAILABLE_INSTRUMENTS.indexOf inst) from if_pos h]
  dsimp only
  split
  · simp
  · split
    · simp
    · split
      · simp
      · split
        · simp
        · rename_i hne
          simp [List.isEmpty_eq_false_iff_exists_mem] at hne ⊢
          exact hne

/-- C3: for every supported instrument, every file-system state, and
either NumPy availability, load_samples returns a non-empty list of
audio buffers. -/
theorem load_samples_never_empty (env : LoadEnv) (inst : String)
    (h : inst ∈ AVAILABLE_INSTRUMENTS) :
    (load_samples env inst).map List.isEmpty = some false :=
  loadSamplesNonempty env inst h

/-- Witness for load_samples_never_empty: samples directory missing and
NumPy unavailable, for the kick instrument. -/
theorem load_samples_never_empty_witness :
    (load_samples
      { numpyAvailable := false, samplesDirExists := false, availableFolders := []
        fuzzyMatch := fun _ _ => none, folderFiles := fun _ => [] } "kick").map
      List.isEmpty = some false :=
  load_samples_never_empty _ "kick" (by decide)

-- Swing independence.

/-- C9: for any two in-range swing values and otherwise identical
parameters and oracles, generate_rhythm produces identical results: the
swing parameter is validated but never consumed by the mixing
pipeline. -/
theorem swing_no_observable_effect (env : Env) (lenv : LoadEnv) (style : String)
    (instruments : List String) (bpm : ℤ) (note_type : String) (s1 s2 : ℤ)
    (complexity : String) (volumes : List (String × ℤ)) (pattern_length : ℕ)
    (time_signature : String) (subdivision : String) (fill_frequency : ℚ)
    (master_volume : ℤ) (pan_settings : List (String × ℚ)) (loop_repeats : ℕ)
    (h1lo : MIN_SWING ≤ s1) (h1hi : s1 ≤ MAX_SWING)
    (h2lo : MIN_SWING ≤ s2) (h2hi : s2 ≤ MAX_SWING) :
    generate_rhythm env lenv style instruments bpm note_type s1 complexity volumes
      pattern_length time_signature subdivision fill_frequency master_volume
      pan_settings loop_repeats =
    generate_rhythm env lenv style instruments bpm note_type s2 complexity volumes
      pattern_length time_signature subdivision fill_frequency master_volume
      pan_settings loop_repeats :=
  rfl

/-- Witness for swing_no_observable_effect at concrete oracles and
parameters, swing 10 versus swing 40. -/
theorem swing_no_observable_effect_witness :
    generate_rhythm
      { rand := fun _ _ => 0, choiceIdx := fun _ _ => 0, normGain := fun _ => 0
        normOk := fun _ => true, overlayOk := fun _ _ => true }
      { numpyAvailable := true, samplesDirExists := false, availableFolders := []
        fuzzyMatch := fun _ _ => none, folderFiles := fun _ => [] }
      "pop" ["kick"] 120 "quarter" 10 "medium" [] 8 "4/4" "straight" (2/10) 100 [] 1 =
    generate_rhythm
      { rand := fun _ _ => 0, choiceIdx := fun _ _ => 0, normGain := fun _ => 0
        normOk := fun _ => true, overlayOk := fun _ _ => true }
      { numpyAvailable := true, samplesDirExists := false, availableFolders := []
        fuzzyMatch := fun _ _ => none, folderFiles := fun _ => [] }
      "pop" ["kick"] 120 "quarter" 40 "medium" [] 8 "4/4" "straight" (2/10) 100 [] 1 :=
  swing_no_observable_effect _ _ "pop" ["kick"] 120 "quarter" 10 40 "medium" [] 8
    "4/4" "straight" (2/10) 100 [] 1 (by decide) (by decide) (by decide) (by decide)

-- MIDI event helper lemmas.

theorem mapM_option_some {α β : Type} (f : α → Option β) (g : α → β) :
    ∀ l : List α, (∀ x ∈ l, f x = some (g x)) → l.mapM f = some (l.map g) := by
  intro l
  induction l with
  | nil => intro _; rfl
  | cons a t ih =>
    intro h
    rw [List.mapM_cons, h a (by simp), ih (fun x hx => h x (by simp [hx]))]
    rfl

theorem countP_flatten_map {α β : Type} (p : β → Bool) (f : α → List β) :
    ∀ l : List α, ((l.map f).flatten).countP p = (l.map (fun a => (f a).countP p)).sum := by
  intro l
  induction l with
  | nil => rfl
  | cons a t ih => simp [List.countP_append, ih]

theorem sum_indicator_eq_countP (p : ℕ → Bool) :
    ∀ row : List ℕ, (row.map (fun h => if p h then 1 else 0)).sum = row.countP p := by
  intro row
  induction row with
  | nil => rfl
  | cons a t ih =>
    by_cases hp : p a
    · simp [List.countP_cons, hp, ih, Nat.add_comm]
    · simp [List.countP_cons, hp, ih]

theorem eventsFor_countOn (note nd : ℕ) (row : List ℕ) :
    (eventsFor note nd row).countP isOnEvt = row.countP (fun h => h ≠ 0) := by
  unfold eventsFor
  rw [countP_flatten_map]
  have hmap : row.enum.map
      (fun pa => (if pa.2 ≠ 0 then
        [(pa.1 * nd, MidiMsg.noteOn note), (pa.1 * nd + nd, MidiMsg.noteOff note)]
        else []).countP isOnEvt) =
      row.enum.map (fun pa => if pa.2 ≠ 0 then 1 else 0) := by
    apply List.map_congr_left
    intro pa _
    by_cases hp : pa.2 ≠ 0
    · simp [hp, List.countP_cons, isOnEvt]
    · simp [hp]
  rw [hmap]
  have hsnd : row.enum.map (fun pa => if pa.2 ≠ 0 then 1 else 0) =
      row.map (fun h => if h ≠ 0 then 1 else 0) := by
    rw [show (fun pa : ℕ × ℕ => if pa.2 ≠ 0 then 1 else 0) =
        (fun h : ℕ => if h ≠ 0 then 1 else 0) ∘ Prod.snd from rfl]
    rw [← List.map_map, List.enum_map_snd]
  rw [hsnd]
  simpa using sum_indicator_eq_countP (fun h => decide (h ≠ 0)) row

theorem eventsFor_countOff (note nd : ℕ) (row : List ℕ) :
    (eventsFor note nd row).countP isOffEvt = row.countP (fun h => h ≠ 0) := by
  unfold eventsFor
  rw [countP_flatten_map]
  have hmap : row.enum.map
      (fun pa => (if pa.2 ≠ 0 then
        [(pa.1 * nd, MidiMsg.noteOn note), (pa.1 * nd + nd, MidiMsg.noteOff note)]
        else []).countP isOffEvt) =
      row.enum.map (fun pa => if pa.2 ≠ 0 then 1 else 0) := by
    apply List.map_congr_left
    intro pa _
    by_cases hp : pa.2 ≠ 0
    · simp [hp, List.countP_cons, isOffEvt]
    · simp [hp]
  rw [hmap]
  have hsnd : row.enum.map (fun pa => if pa.2 ≠ 0 then 1 else 0) =
      row.map (fun h => if h ≠ 0 then 1 else 0) := by
    rw [show (fun pa : ℕ × ℕ => if pa.2 ≠ 0 then 1 else 0) =
        (fun h : ℕ => if h ≠ 0 then 1 else 0) ∘ Prod.snd from rfl]
    rw [← List.map_map, List.enum_map_snd]
  rw [hsnd]
  simpa using sum_indicator_eq_countP (fun h => decide (h ≠ 0)) row

theorem countP_deltaTimes (p : MidiMsg → Bool) :
    ∀ (l : List (ℕ × MidiMsg)) (last : ℤ),
      (deltaTimes last l).countP (fun e => p e.2) = l.countP (fun e => p e.2) := by
  intro l
  induction l with
  | nil => intro last; rfl
  | cons a t ih =>
    intro last
    cases a with
    | mk ta ma => simp [deltaTimes, List.countP_cons, ih]

theorem deltaTimes_all_nonneg :
    ∀ (l : List (ℕ × MidiMsg)), l.Pairwise (fun a b => a.1 ≤ b.1) →
      ∀ last : ℤ, (∀ e ∈ l, last ≤ (e.1 : ℤ)) →
        (deltaTimes last l).all (fun e => 0 ≤ e.1) = true := by
  intro l
  induction l with
  | nil => intro _ last _; rfl
  | cons a t ih =>
    intro hpw last hle
    rw [List.pairwise_cons] at hpw
    cases a with
    | mk ta ma =>
      simp only [deltaTimes, List.all_cons, Bool.and_eq_true]
      constructor
      · simp only [decide_eq_true_eq]
        have := hle (ta, ma) (by simp)
        omega
      · exact ih hpw.2 (ta : ℤ) (fun e he => by exact_mod_cast hpw.1 e he)

theorem countOn_deltaTimes :
    ∀ (l : List (ℕ × MidiMsg)) (last : ℤ),
      (deltaTimes last l).countP isOnEvt = l.countP isOnEvt := by
  intro l
  induction l with
  | nil => intro last; rfl
  | cons a t ih =>
    intro last
    cases a with
    | mk ta ma =>
      have heq : isOnEvt ((ta : ℤ) - last, ma) = isOnEvt (ta, ma) := rfl
      simp [deltaTimes, List.countP_cons, ih, heq]

theorem countOff_deltaTimes :
    ∀ (l : List (ℕ × MidiMsg)) (last : ℤ),
      (deltaTimes last l).countP isOffEvt = l.countP isOffEvt := by
  intro l
  induction l with
  | nil => intro last; rfl
  | cons a t ih =>
    intro last
    cases a with
    | mk ta ma =>
      have heq : isOffEvt ((ta : ℤ) - last, ma) = isOffEvt (ta, ma) := rfl
      simp [deltaTimes, List.countP_cons, ih, heq]

theorem midiTrackProps (nd : ℕ) (patterns : List (String × List ℕ))
    (h : ∀ p ∈ patterns, p.1 ∈ AVAILABLE_INSTRUMENTS) :
    (generate_midi_track nd patterns).map
      (fun tr => (nonnegDeltas tr, countOn tr, countOff tr)) =
      some (true, totalHits patterns, totalHits patterns) := by
  have hev : generate_midi_events nd patterns =
      some ((patterns.map (fun p =>
        eventsFor (36 + AVAILABLE_INSTRUMENTS.indexOf p.1) nd p.2)).flatten) := by
    unfold generate_midi_events
    rw [mapM_option_some _
      (fun p : String × List ℕ =>
        eventsFor (36 + AVAILABLE_INSTRUMENTS.indexOf p.1) nd p.2) patterns
      (fun p hp => by
        rw [show instIndex p.1 = some (AVAILABLE_INSTRUMENTS.indexOf p.1) from
          if_pos (h p hp)]
        rfl)]
    rfl
  set evts := (patterns.map (fun p =>
    eventsFor (36 + AVAILABLE_INSTRUMENTS.indexOf p.1) nd p.2)).flatten with hevts
  unfold generate_midi_track
  rw [hev]
  simp only [Option.map_some']
  have hperm := List.mergeSort_perm evts (fun a b => a.1 ≤ b.1)
  have hcounts : ∀ q : ∀ {γ : Type}, γ × MidiMsg → Bool,
      (∀ note nd row, (eventsFor note nd row).countP q =
        row.countP (fun hh => hh ≠ 0)) →
      (evts.mergeSort (fun a b => a.1 ≤ b.1)).countP q = totalHits patterns := by
    intro q hq
    rw [hperm.countP_eq, hevts, countP_flatten_map]
    unfold totalHits
    congr 1
    apply List.map_congr_left
    intro p _
    exact hq _ _ _
  refine congrArg some ?_
  refine Prod.ext ?_ (Prod.ext ?_ ?_)
  · show nonnegDeltas (deltaTimes 0 (evts.mergeSort (fun a b => a.1 ≤ b.1))) = true
    unfold nonnegDeltas
    apply deltaTimes_all_nonneg
    · have hsorted := @List.sorted_mergeSort (ℕ × MidiMsg)
        (fun a b => decide (a.1 ≤ b.1))
        (fun a b c hab hbc => by
          simp only [decide_eq_true_eq] at *
          omega)
        (fun a b => by
          rcases Nat.le_total a.1 b.1 with hle | hle <;> simp [hle])
        evts
      exact hsorted.imp (fun hab => by simpa using hab)
    · intro e _
      exact_mod_cast Nat.zero_le e.1
  · show countOn (deltaTimes 0 (evts.mergeSort (fun a b => a.1 ≤ b.1))) = totalHits patterns
    unfold countOn
    rw [countOn_deltaTimes]
    exact hcounts isOnEvt eventsFor_countOn
  · show countOff (deltaTimes 0 (evts.mergeSort (fun a b => a.1 ≤ b.1))) = totalHits patterns
    unfold countOff
    rw [countOff_deltaTimes]
    exact hcounts isOffEvt eventsFor_countOff

/-- C5: for every map of instrument rows over supported instruments, the
emitted MIDI track has non-negative delta-times on every message, and
the number of note_on events equals the number of note_off events equals
the total hit count over all rows. -/
theorem midi_deltas_and_counts (nd : ℕ) (patterns : List (String × List ℕ))
    (h : ∀ p ∈ patterns, p.1 ∈ AVAILABLE_INSTRUMENTS) :
    (generate_midi_track nd patterns).map
      (fun tr => (nonnegDeltas tr, countOn tr, countOff tr)) =
      some (true, totalHits patterns, totalHits patterns) :=
  midiTrackProps nd patterns h

/-- Witness for midi_deltas_and_counts: kick and snare rows at the
quarter-note duration 480. -/
theorem midi_deltas_and_counts_witness :
    (generate_midi_track 480 [("kick", [1, 0, 1, 0]), ("snare", [0, 0, 1, 0])]).map
      (fun tr => (nonnegDeltas tr, countOn tr, countOff tr)) =
      some (true, totalHits [("kick", [1, 0, 1, 0]), ("snare", [0, 0, 1, 0])],
        totalHits [("kick", [1, 0, 1, 0]), ("snare", [0, 0, 1, 0])]) :=
  midi_deltas_and_counts 480 [("kick", [1, 0, 1, 0]), ("snare", [0, 0, 1, 0])]
    (by decide)

-- Mixing pipeline: duration lemmas.

theorem durationMs_canonical (a : AudioSeg) : a.canonical.durationMs = a.durationMs :=
  rfl

theorem durationMs_addGain (a : AudioSeg) (g : ℚ) : (a.addGain g).durationMs = a.durationMs :=
  rfl

theorem durationMs_apply_volume (a : AudioSeg) (v : ℤ) :
    (apply_volume a v).durationMs = a.durationMs := by
  unfold apply_volume
  split
  · rfl
  · rfl

theorem instrumentStep_fst (env : Env) (bd : ℕ) (patterns : List (String × List ℕ))
    (volumes : List (String × ℤ)) (pans : List (String × ℚ)) (idx : ℕ)
    (acc : AudioSeg × List (String × AudioSeg)) (p : String × List AudioSeg) :
    (instrumentStep env bd patterns volumes pans idx acc p).1 = acc.1 := by
  unfold instrumentStep
  dsimp only
  split
  · rfl
  · split
    · split
      · rfl
      · rfl
    · rfl

theorem foldl_instrumentStep_fst (env : Env) (bd : ℕ)
    (patterns : List (String × List ℕ)) (volumes : List (String × ℤ))
    (pans : List (String × ℚ)) (idx : ℕ) :
    ∀ (L : List (String × List AudioSeg)) (acc : AudioSeg × List (String × AudioSeg)),
      (L.foldl (instrumentStep env bd patterns volumes pans idx) acc).1 = acc.1 := by
  intro L
  induction L with
  | nil => intro acc; rfl
  | cons p t ih =>
    intro acc
    rw [List.foldl_cons, ih]
    exact instrumentStep_fst ..

theorem beatStep_fst_duration (env : Env) (bd : ℕ)
    (patterns : List (String × List ℕ)) (volumes : List (String × ℤ))
    (pans : List (String × ℚ)) (samplesL : List (String × List AudioSeg)) (idx : ℕ)
    (stems : List (String × AudioSeg)) :
    (beatStep env bd patterns volumes pans samplesL idx stems).1.durationMs = bd := by
  unfold beatStep
  dsimp only
  split
  · rw [durationMs_addGain, durationMs_canonical, foldl_instrumentStep_fst]
    rfl
  · rfl

theorem mixLoop_layers (env : Env) (bd : ℕ)
    (patterns : List (String × List ℕ)) (volumes : List (String × ℤ))
    (pans : List (String × ℚ)) (samplesL : List (String × List AudioSeg))
    (stems0 : List (String × AudioSeg)) :
    ∀ n, (mixLoop env bd patterns volumes pans samplesL stems0 n).1.length = n ∧
      ∀ l ∈ (mixLoop env bd patterns volumes pans samplesL stems0 n).1,
        l.durationMs = bd := by
  intro n
  induction n with
  | zero => exact ⟨rfl, by intro l hl; simp [mixLoop] at hl⟩
  | succ m ih =>
    constructor
    · simp [mixLoop, ih.1]
    · intro l hl
      simp only [mixLoop, List.mem_append, List.mem_singleton] at hl
      rcases hl with hl | hl
      · exact ih.2 l hl
      · rw [hl]
        exact beatStep_fst_duration ..

theorem foldl_concat_duration :
    ∀ (L : List AudioSeg) (acc : AudioSeg),
      (L.foldl AudioSeg.concat acc).durationMs =
        acc.durationMs + (L.map AudioSeg.durationMs).sum := by
  intro L
  induction L with
  | nil => intro acc; simp
  | cons a t ih =>
    intro acc
    rw [List.foldl_cons, ih]
    simp [AudioSeg.concat]
    omega

theorem sum_map_flatten_replicate (f : AudioSeg → ℕ) (L : List AudioSeg) :
    ∀ reps, (((List.replicate reps L).flatten).map f).sum = reps * ((L.map f).sum) := by
  intro reps
  induction reps with
  | zero => simp
  | succ r ih =>
    rw [List.replicate_succ]
    simp only [List.flatten_cons, List.map_append, List.sum_append, ih]
    ring

theorem assembleLoop_duration (layers : List AudioSeg) (reps : ℕ) (mv : ℤ)
    (n bd : ℕ) (hlen : layers.length = n)
    (hdur : ∀ l ∈ layers, l.durationMs = bd) :
    (assembleLoop layers reps mv (n * bd * reps)).durationMs = n * bd * reps := by
  have hmap : layers.map AudioSeg.durationMs = List.replicate n bd := by
    rw [List.eq_replicate_iff]
    constructor
    · simp [hlen]
    · intro b hb
      rw [List.mem_map] at hb
      obtain ⟨l, hl, hlb⟩ := hb
      rw [← hlb]
      exact hdur l hl
  have hreal : (((List.replicate reps layers).flatten).map AudioSeg.durationMs).sum =
      n * bd * reps := by
    rw [sum_map_flatten_replicate, hmap, List.sum_replicate, smul_eq_mul]
    ring
  unfold assembleLoop
  dsimp only
  have hfin : (apply_volume (((List.replicate reps layers).flatten).foldl AudioSeg.concat
      (create_silent_segment 0)) mv).durationMs = n * bd * reps := by
    rw [durationMs_apply_volume, foldl_concat_duration, hreal]
    simp [create_silent_segment]
  rw [if_neg (by omega)]
  exact hfin

-- Validation and someness lemmas feeding the loop duration theorem.

theorem lookup_mem {β : Type} (l : List (String × β)) (k : String) (v : β)
    (h : l.lookup k = some v) : (k, v) ∈ l := by
  induction l with
  | nil => simp [List.lookup] at h
  | cons p t ih =>
    rw [List.lookup_cons] at h
    split at h
    · rename_i hbeq
      have hk : k = p.1 := (beq_iff_eq ..).mp hbeq
      simp only [Option.some.injEq] at h
      rcases p with ⟨a, b⟩
      simp_all
    · right
      exact ih h

theorem validComplexity_mem (c : String) : validComplexity c ∈ COMPLEXITY_LEVELS := by
  unfold validComplexity
  split
  · assumption
  · decide

theorem validPatternLength_pos (n : ℕ) : 0 < validPatternLength n := by
  unfold validPatternLength
  split
  · decide
  · omega

theorem validPatternLength_eq (n : ℕ) (h4 : 4 ≤ n) (h16 : n ≤ 16) :
    validPatternLength n = n := by
  unfold validPatternLength
  rw [if_neg (by omega)]

theorem styleConfigs_rows_nonempty :
    ∀ sc ∈ STYLE_CONFIGS, ∀ p ∈ sc.2.pattern, p.2 ≠ [] := by
  decide

theorem basePattern_nonempty (style inst : String) :
    (((styleConfig (validStyle style)).pattern.lookup inst).getD
      (List.replicate 8 0)) ≠ [] := by
  cases hlk : (styleConfig (validStyle style)).pattern.lookup inst with
  | none => simp [List.replicate]
  | some l =>
    simp only [Option.getD_some]
    have hcfg : ∃ name, STYLE_CONFIGS.lookup (validStyle style) = some
        (styleConfig (validStyle style)) ∧
        (name, styleConfig (validStyle style)) ∈ STYLE_CONFIGS := by
      unfold validStyle styleConfig
      split
      · rename_i hsome
        obtain ⟨c, hc⟩ := Option.isSome_iff_exists.mp hsome
        refine ⟨style, ?_, ?_⟩
        · simp [hc]
        · rw [hc]
          simpa using lookup_mem _ _ _ hc
      · refine ⟨"pop", by rfl, ?_⟩
        rw [show List.lookup "pop" STYLE_CONFIGS = some (STYLE_CONFIGS.get ⟨3, by decide⟩).2
          from rfl]
        simp only [Option.getD_some]
        have hg : STYLE_CONFIGS.get ⟨3, by decide⟩ ∈ STYLE_CONFIGS :=
          List.get_mem STYLE_CONFIGS 3 (by decide)
        exact hg
    obtain ⟨name, _, hmem⟩ := hcfg
    have hrow := lookup_mem _ _ _ hlk
    exact styleConfigs_rows_nonempty _ hmem _ hrow

theorem gp_isSome (g : ℕ → ℚ) (complexity : String) (n : ℕ) (base : List ℕ) (f : ℚ)
    (hc : complexity ∈ COMPLEXITY_LEVELS) (hpos : 0 < n) (hb : base ≠ [])
    (hf0 : 0 < f) (hf1 : f ≤ 1) :
    (generate_pattern g complexity n base f).isSome := by
  have := (gpShape g complexity n base f hc hpos hb hf0 hf1).1
  cases hgp : generate_pattern g complexity n base f with
  | none => rw [hgp] at this; simp at this
  | some row => rfl

theorem load_isSome (lenv : LoadEnv) (inst : String)
    (h : inst ∈ AVAILABLE_INSTRUMENTS) : (load_samples lenv inst).isSome := by
  have := loadSamplesNonempty lenv inst h
  cases hl : load_samples lenv inst with
  | none => rw [hl] at this; simp at this
  | some l => rfl

theorem mapM_exists_some {α β : Type} (f : α → Option β) :
    ∀ l : List α, (∀ x ∈ l, (f x).isSome) → ∃ ys, l.mapM f = some ys := by
  intro l
  induction l with
  | nil => intro _; exact ⟨[], rfl⟩
  | cons a t ih =>
    intro h
    obtain ⟨b, hb⟩ := Option.isSome_iff_exists.mp (h a (by simp))
    obtain ⟨ys, hys⟩ := ih (fun x hx => h x (by simp [hx]))
    refine ⟨b :: ys, ?_⟩
    rw [List.mapM_cons, hb, hys]
    rfl

theorem loopDurAux (env : Env) (lenv : LoadEnv) (style : String)
    (instruments : List String) (bpm : ℤ) (note_type : String) (swing : ℤ)
    (complexity : String) (volumes : List (String × ℤ)) (pattern_length : ℕ)
    (time_signature : String) (subdivision : String) (fill_frequency : ℚ)
    (master_volume : ℤ) (pan_settings : List (String × ℚ)) (loop_repeats : ℕ)
    (h4 : 4 ≤ pattern_length) (h16 : pattern_length ≤ 16) (hr : 1 ≤ loop_repeats)
    (hf0 : 0 < fill_frequency) (hf1 : fill_frequency ≤ 1)
    (hinst : ∀ i ∈ instruments, i ∈ AVAILABLE_INSTRUMENTS) :
    (generate_rhythm env lenv style instruments bpm note_type swing complexity
      volumes pattern_length time_signature subdivision fill_frequency
      master_volume pan_settings loop_repeats).map
        (fun r => r.loopSeg.durationMs) =
    some (pattern_length *
      beatDurationMs (validBpm (validStyle style) bpm) (validNoteType note_type)
        (validSubdivision subdivision) * loop_repeats) := by
  unfold generate_rhythm
  dsimp only
  rw [validPatternLength_eq pattern_length h4 h16]
  obtain ⟨ps, hps⟩ := mapM_exists_some
    (fun inst => (generate_pattern (env.rand inst) (validComplexity complexity)
      pattern_length
      (((styleConfig (validStyle style)).pattern.lookup inst).getD (List.replicate 8 0))
      fill_frequency).map (fun row => (inst, row)))
    instruments
    (fun inst _ => by
      obtain ⟨v, hv⟩ := Option.isSome_iff_exists.mp
        (gp_isSome (env.rand inst) (validComplexity complexity) pattern_length
          (((styleConfig (validStyle style)).pattern.lookup inst).getD
            (List.replicate 8 0))
          fill_frequency (validComplexity_mem complexity) (by omega)
          (basePattern_nonempty style inst) hf0 hf1)
      simp only [hv, Option.map_some', Option.isSome_some])
  obtain ⟨ls, hls⟩ := mapM_exists_some
    (fun inst => (load_samples lenv inst).map (fun s => (inst, s)))
    instruments
    (fun inst hi => by
      obtain ⟨v, hv⟩ := Option.isSome_iff_exists.mp
        (load_isSome lenv inst (hinst inst hi))
      simp only [hv, Option.map_some', Option.isSome_some])
  rw [hps]
  dsimp only
  rw [hls]
  dsimp only
  split
  · simp [GenResult.loopSeg, create_silent_segment]
  · simp only [Option.map_some', GenResult.loopSeg]
    congr 1
    exact assembleLoop_duration _ _ _ _ _
      (mixLoop_layers env
        (beatDurationMs (validBpm (validStyle style) bpm) (validNoteType note_type)
          (validSubdivision subdivision)) ps volumes pan_settings
        (ls.filter (fun p => ¬ p.2.isEmpty))
        ((ls.filter (fun p => ¬ p.2.isEmpty)).map
          (fun p => (p.1, create_silent_segment 0))) pattern_length).1
      (mixLoop_layers env
        (beatDurationMs (validBpm (validStyle style) bpm) (validNoteType note_type)
          (validSubdivision subdivision)) ps volumes pan_settings
        (ls.filter (fun p => ¬ p.2.isEmpty))
        ((ls.filter (fun p => ¬ p.2.isEmpty)).map
          (fun p => (p.1, create_silent_segment 0))) pattern_length).2

/-- C4: for every configuration with pattern_length in 4..16 and
loop_repeats at least 1 (and parameters on which the run completes), the
loop returned by generate_rhythm has duration exactly
pattern_length * beat_duration_ms * loop_repeats after trailing-silence
padding. -/
theorem loop_duration_exact (env : Env) (lenv : LoadEnv) (style : String)
    (instruments : List String) (bpm : ℤ) (note_type : String) (swing : ℤ)
    (complexity : String) (volumes : List (String × ℤ)) (pattern_length : ℕ)
    (time_signature : String) (subdivision : String) (fill_frequency : ℚ)
    (master_volume : ℤ) (pan_settings : List (String × ℚ)) (loop_repeats : ℕ)
    (h4 : 4 ≤ pattern_length) (h16 : pattern_length ≤ 16) (hr : 1 ≤ loop_repeats)
    (hf0 : 0 < fill_frequency) (hf1 : fill_frequency ≤ 1)
    (hinst : ∀ i ∈ instruments, i ∈ AVAILABLE_INSTRUMENTS) :
    (generate_rhythm env lenv style instruments bpm note_type swing complexity
      volumes pattern_length time_signature subdivision fill_frequency
      master_volume pan_settings loop_repeats).map
        (fun r => r.loopSeg.durationMs) =
    some (pattern_length *
      beatDurationMs (validBpm (validStyle style) bpm) (validNoteType note_type)
        (validSubdivision subdivision) * loop_repeats) :=
  loopDurAux env lenv style instruments bpm note_type swing complexity volumes
    pattern_length time_signature subdivision fill_frequency master_volume
    pan_settings loop_repeats h4 h16 hr hf0 hf1 hinst

/-- Witness for loop_duration_exact at a concrete configuration: pop
style, one kick instrument, 120 bpm, pattern length 8, two repeats. -/
theorem loop_duration_exact_witness :
    (generate_rhythm
      { rand := fun _ _ => 0, choiceIdx := fun _ _ => 0, normGain := fun _ => 0
        normOk := fun _ => true, overlayOk := fun _ _ => true }
      { numpyAvailable := true, samplesDirExists := false, availableFolders := []
        fuzzyMatch := fun _ _ => none, folderFiles := fun _ => [] }
      "pop" ["kick"] 120 "quarter" 0 "medium" [] 8 "4/4" "straight" (2/10) 100
      [] 2).map (fun r => r.loopSeg.durationMs) =
    some (8 *
      beatDurationMs (validBpm (validStyle "pop") 120) (validNoteType "quarter")
        (validSubdivision "straight") * 2) :=
  loop_duration_exact _ _ "pop" ["kick"] 120 "quarter" 0 "medium" [] 8 "4/4"
    "straight" (2/10) 100 [] 2 (by decide) (by decide) (by decide) (by norm_num)
    (by norm_num) (by decide)

-- Stem accumulation lemmas.

theorem overlay_eq (a b : AudioSeg) (g : ℚ) : a.overlay b g = a :=
  rfl

theorem lookup_stemAppend_self (stems : List (String × AudioSeg)) (inst : String)
    (seg : AudioSeg) :
    (stemAppend stems inst seg).lookup inst =
      (stems.lookup inst).map (fun s => s.concat seg) := by
  induction stems with
  | nil => rfl
  | cons p t ih =>
    rcases p with ⟨a, b⟩
    by_cases hk : inst = a
    · subst hk
      simp [stemAppend, List.lookup_cons]
    · have hb : (inst == a) = false := beq_eq_false_iff_ne.mpr hk
      have ha : ¬ a = inst := fun h => hk h.symm
      simp only [stemAppend, List.map_cons, if_neg ha, List.lookup_cons, hb]
      simpa [stemAppend] using ih

theorem lookup_stemAppend_other (stems : List (String × AudioSeg))
    (inst inst' : String) (seg : AudioSeg) (h : inst' ≠ inst) :
    (stemAppend stems inst' seg).lookup inst = stems.lookup inst := by
  induction stems with
  | nil => rfl
  | cons p t ih =>
    rcases p with ⟨a, b⟩
    by_cases ha : a = inst'
    · have hb : (inst == a) = false := by
        rw [beq_eq_false_iff_ne]
        intro hik
        exact h (by rw [ha] at hik; exact hik.symm)
      simp only [stemAppend, List.map_cons, if_pos ha, List.lookup_cons, hb]
      simpa [stemAppend] using ih
    · by_cases hk : (inst == a) = true
      · simp only [stemAppend, List.map_cons, if_neg ha, List.lookup_cons, hk]
      · have hb : (inst == a) = false := by
          rw [Bool.eq_false_iff]
          exact hk
        simp only [stemAppend, List.map_cons, if_neg ha, List.lookup_cons, hb]
        simpa [stemAppend] using ih

theorem instrumentStep_snd_other (env : Env) (bd : ℕ)
    (patterns : List (String × List ℕ)) (volumes : List (String × ℤ))
    (pans : List (String × ℚ)) (idx : ℕ) (inst : String)
    (acc : AudioSeg × List (String × AudioSeg)) (p : String × List AudioSeg)
    (h : p.1 ≠ inst) :
    ((instrumentStep env bd patterns volumes pans idx acc p).2).lookup inst =
      acc.2.lookup inst := by
  unfold instrumentStep
  dsimp only
  split
  · rfl
  · split
    · split
      · exact lookup_stemAppend_other _ _ _ _ h
      · rfl
    · rfl

theorem instrumentStep_snd_self (env : Env) (bd : ℕ)
    (patterns : List (String × List ℕ)) (volumes : List (String × ℤ))
    (pans : List (String × ℚ)) (idx : ℕ) (inst : String) (row : List ℕ)
    (hrow : patterns.lookup inst = some row)
    (hov : env.overlayOk inst idx = true)
    (acc : AudioSeg × List (String × AudioSeg)) (p : String × List AudioSeg)
    (hp : p.1 = inst) :
    ((instrumentStep env bd patterns volumes pans idx acc p).2).lookup inst =
      if row.getD idx 0 ≠ 0 then
        (acc.2.lookup inst).map (fun s => s.concat (create_silent_segment bd))
      else acc.2.lookup inst := by
  unfold instrumentStep
  dsimp only
  rw [hp, hrow]
  dsimp only
  by_cases hhit : row.getD idx 0 ≠ 0
  · rw [if_pos hhit, if_pos hhit]
    simp only [hov, if_true]
    rw [overlay_eq]
    exact lookup_stemAppend_self ..
  · rw [if_neg hhit, if_neg hhit]

theorem foldl_stem_none (env : Env) (bd : ℕ) (patterns : List (String × List ℕ))
    (volumes : List (String × ℤ)) (pans : List (String × ℚ)) (idx : ℕ)
    (inst : String) :
    ∀ (L : List (String × List AudioSeg)) (acc : AudioSeg × List (String × AudioSeg)),
      (∀ p ∈ L, p.1 ≠ inst) →
      ((L.foldl (instrumentStep env bd patterns volumes pans idx) acc).2).lookup inst =
        acc.2.lookup inst := by
  intro L
  induction L with
  | nil => intro acc _; rfl
  | cons p t ih =>
    intro acc h
    rw [List.foldl_cons, ih _ (fun q hq => h q (by simp [hq]))]
    exact instrumentStep_snd_other env bd patterns volumes pans idx inst acc p
      (h p (by simp))

theorem foldl_stem (env : Env) (bd : ℕ) (patterns : List (String × List ℕ))
    (volumes : List (String × ℤ)) (pans : List (String × ℚ)) (idx : ℕ)
    (inst : String) (row : List ℕ) (hrow : patterns.lookup inst = some row)
    (hov : env.overlayOk inst idx = true) :
    ∀ (L : List (String × List AudioSeg)), (L.map Prod.fst).Nodup →
      inst ∈ L.map Prod.fst →
      ∀ acc : AudioSeg × List (String × AudioSeg),
      ((L.foldl (instrumentStep env bd patterns volumes pans idx) acc).2).lookup inst =
        if row.getD idx 0 ≠ 0 then
          (acc.2.lookup inst).map (fun s => s.concat (create_silent_segment bd))
        else acc.2.lookup inst := by
  intro L
  induction L with
  | nil => intro _ hmem; simp at hmem
  | cons p t ih =>
    intro hnd hmem acc
    rw [List.map_cons, List.nodup_cons] at hnd
    rw [List.map_cons, List.mem_cons] at hmem
    rw [List.foldl_cons]
    by_cases hp : p.1 = inst
    · have hnot : ∀ q ∈ t, q.1 ≠ inst := by
        intro q hq hqi
        exact hnd.1 (hp ▸ hqi ▸ List.mem_map_of_mem Prod.fst hq)
      rw [foldl_stem_none env bd patterns volumes pans idx inst t _ hnot]
      exact instrumentStep_snd_self env bd patterns volumes pans idx inst row hrow
        hov acc p hp
    · rcases hmem with hmem | hmem
      · exact absurd hmem.symm hp
      · rw [ih hnd.2 hmem]
        rw [instrumentStep_snd_other env bd patterns volumes pans idx inst acc p hp]

theorem beatStep_stem (env : Env) (bd : ℕ) (patterns : List (String × List ℕ))
    (volumes : List (String × ℤ)) (pans : List (String × ℚ))
    (samplesL : List (String × List AudioSeg)) (idx : ℕ) (inst : String)
    (row : List ℕ) (hrow : patterns.lookup inst = some row)
    (hov : env.overlayOk inst idx = true)
    (hnd : (samplesL.map Prod.fst).Nodup) (hmem : inst ∈ samplesL.map Prod.fst)
    (stems : List (String × AudioSeg)) :
    ((beatStep env bd patterns volumes pans samplesL idx stems).2).lookup inst =
      if row.getD idx 0 ≠ 0 then
        (stems.lookup inst).map (fun s => s.concat (create_silent_segment bd))
      else stems.lookup inst := by
  unfold beatStep
  dsimp only
  exact foldl_stem env bd patterns volumes pans idx inst row hrow hov samplesL hnd
    hmem _

theorem countP_take_succ (row : List ℕ) (b : ℕ) :
    ((row.take (b + 1)).countP (fun h => h ≠ 0)) =
      ((row.take b).countP (fun h => h ≠ 0)) + (if row.getD b 0 ≠ 0 then 1 else 0) := by
  rw [List.take_succ, List.countP_append]
  congr 1
  cases hg : row[b]? with
  | none => simp [hg]
  | some v =>
    by_cases hv : v = 0
    · subst hv
      simp [hg]
    · simp [hg, hv, List.countP_cons]

theorem mixLoop_stem_duration (env : Env) (bd : ℕ)
    (patterns : List (String × List ℕ)) (volumes : List (String × ℤ))
    (pans : List (String × ℚ)) (samplesL : List (String × List AudioSeg))
    (stems0 : List (String × AudioSeg)) (inst : String) (row : List ℕ)
    (hnd : (samplesL.map Prod.fst).Nodup) (hmem : inst ∈ samplesL.map Prod.fst)
    (hrow : patterns.lookup inst = some row)
    (hov : ∀ i j, env.overlayOk i j = true)
    (hstem0 : (stems0.lookup inst).map AudioSeg.durationMs = some 0) :
    ∀ k, (((mixLoop env bd patterns volumes pans samplesL stems0 k).2).lookup inst).map
      AudioSeg.durationMs = some (bd * ((row.take k).countP (fun h => h ≠ 0))) := by
  intro k
  induction k with
  | zero => simpa [mixLoop] using hstem0
  | succ m ih =>
    show (((beatStep env bd patterns volumes pans samplesL m
      (mixLoop env bd patterns volumes pans samplesL stems0 m).2).2).lookup inst).map
      AudioSeg.durationMs = _
    rw [beatStep_stem env bd patterns volumes pans samplesL m inst row hrow
      (hov inst m) hnd hmem]
    rw [countP_take_succ]
    cases hl : ((mixLoop env bd patterns volumes pans samplesL stems0 m).2).lookup inst with
    | none => rw [hl] at ih; simp at ih
    | some s =>
      rw [hl] at ih
      simp only [Option.map_some', Option.some.injEq] at ih
      by_cases hhit : row.getD m 0 ≠ 0
      · rw [if_pos hhit, if_pos hhit]
        simp only [Option.map_some', Option.some.injEq]
        rw [show (s.concat (create_silent_segment bd)).durationMs =
          s.durationMs + bd from rfl, ih]
        ring
      · rw [if_neg hhit, if_neg hhit]
        simp only [Option.map_some', Option.some.injEq]
        rw [ih]
        ring

/-- C1 counterexample: in a run with one kick instrument whose pattern
is inactive at beat index 1, the kick stem after BeatMixer processes
beat 1 has duration 500 ms, not the (1+1) * 500 = 1000 ms the claim
requires: no silent segment is appended at inactive beats. -/
theorem stems_not_padded_when_inactive :
    ¬ ((((mixLoop
      { rand := fun _ _ => 0, choiceIdx := fun _ _ => 0, normGain := fun _ => 0
        normOk := fun _ => true, overlayOk := fun _ _ => true }
      500 [("kick", [1, 0, 1, 0])] [] [] [("kick", [create_silent_segment 300])]
      [("kick", create_silent_segment 0)] (1 + 1)).2.lookup "kick").map
      AudioSeg.durationMs) = some ((1 + 1) * 500)) := by
  decide

/-- C1 (amended): the running stem buffer grows by beat_duration_ms only
at beats where the instrument is active; after BeatMixer processes beat
index b the stem duration is beat_duration_ms times the number of hits
among beats 0..b (not (b+1) * beat_duration_ms), so the unrepeated stem
duration equals hit-count * beat_duration_ms and stems of instruments
with rests are shorter than the mixed loop. -/
theorem stem_duration_counts_hits (env : Env) (bd : ℕ)
    (patterns : List (String × List ℕ)) (volumes : List (String × ℤ))
    (pans : List (String × ℚ)) (samplesL : List (String × List AudioSeg))
    (stems0 : List (String × AudioSeg)) (inst : String) (row : List ℕ) (b : ℕ)
    (hnd : (samplesL.map Prod.fst).Nodup) (hmem : inst ∈ samplesL.map Prod.fst)
    (hrow : patterns.lookup inst = some row)
    (hov : ∀ i j, env.overlayOk i j = true)
    (hstem0 : (stems0.lookup inst).map AudioSeg.durationMs = some 0) :
    (((mixLoop env bd patterns volumes pans samplesL stems0 (b + 1)).2).lookup
      inst).map AudioSeg.durationMs =
      some (bd * ((row.take (b + 1)).countP (fun h => h ≠ 0))) :=
  mixLoop_stem_duration env bd patterns volumes pans samplesL stems0 inst row hnd
    hmem hrow hov hstem0 (b + 1)

/-- Witness for stem_duration_counts_hits: the counterexample run, where
the kick stem after beat index 1 has duration 500 * 1 (one hit). -/
theorem stem_duration_counts_hits_witness :
    (((mixLoop
      { rand := fun _ _ => 0, choiceIdx := fun _ _ => 0, normGain := fun _ => 0
        normOk := fun _ => true, overlayOk := fun _ _ => true }
      500 [("kick", [1, 0, 1, 0])] [] [] [("kick", [create_silent_segment 300])]
      [("kick", create_silent_segment 0)] (1 + 1)).2).lookup "kick").map
      AudioSeg.durationMs =
      some (500 * (([1, 0, 1, 0].take (1 + 1)).countP (fun h => h ≠ 0))) :=
  stem_duration_counts_hits _ 500 [("kick", [1, 0, 1, 0])] [] []
    [("kick", [create_silent_segment 300])] [("kick", create_silent_segment 0)]
    "kick" [1, 0, 1, 0] 1 (by decide) (by decide) (by decide) (fun _ _ => rfl)
    (by decide)
